import Mathlib

/-!
Verification of the HarmoniqSync audio alignment core (C++ sources under
`Sources/HarmoniqSyncCore/src`) against its natural-language specification.

The C++ code computes with `float`/`double`; this development idealises
IEEE floating point as exact rational arithmetic (`ℚ`).  Machine integers
(`int64_t`, `size_t`, `int`) are modelled as `ℤ`/`ℕ`; the C cast
`static_cast<int64_t>(double)` (truncation toward zero) is modelled by
`ratTrunc`.  Transcendental functions (`sqrt`, `tanh`, `log`, `log2`,
`pow`) have no computable rational counterpart; where a claim does not
depend on their values, the quantity they produce is taken as an
explicit parameter of the embedded function (each such parameter is
documented at its definition).
-/

namespace HarmoniqSync

/-- Truncation of a rational toward zero, the semantics of C++
`static_cast` from a floating-point value to an integer type. -/
def ratTrunc (q : ℚ) : ℤ :=
  if 0 ≤ q then ⌊q⌋ else ⌈q⌉

/-- Error codes of `harmoniq_sync_error_t` (`harmoniq_sync.h`, lines 20-27). -/
inductive HError where
  | success
  | invalidInput
  | insufficientData
  | processingFailed
  | outOfMemory
  | unsupportedFormat
deriving DecidableEq, Repr

/-- The integer value each `harmoniq_sync_error_t` enumerator carries. -/
def HError.code : HError → ℤ
  | .success => 0
  | .invalidInput => -1
  | .insufficientData => -2
  | .processingFailed => -3
  | .outOfMemory => -4
  | .unsupportedFormat => -5

/-- Alignment method enum `harmoniq_sync_method_t` (`harmoniq_sync.h`, lines 29-35). -/
inductive Method where
  | spectralFlux
  | chroma
  | energy
  | mfcc
  | hybrid
deriving DecidableEq, Repr

/-- The result record `harmoniq_sync_result_t` (`harmoniq_sync.h`, lines 37-46).
Doubles become `ℚ`, `int64_t` becomes `ℤ`, the 32-byte method tag becomes a
`String`. -/
structure SyncResult where
  offset_samples : ℤ
  confidence : ℚ
  peak_correlation : ℚ
  secondary_peak_ratio : ℚ
  snr_estimate : ℚ
  noise_floor_db : ℚ
  method : String
  error : HError
deriving DecidableEq, Repr

/-- `AlignmentEngine::createResult` (`alignment_engine.cpp`, lines 604-630).
The method tag is copied with at most 31 characters (`sizeof(result.method) - 1`). -/
def createResult (offsetSamples : ℤ) (confidence peakCorrelation secondaryPeakRatio
    snrEstimate noiseFloorDb : ℚ) (method : String) (error : HError) : SyncResult :=
  { offset_samples := offsetSamples
    confidence := confidence
    peak_correlation := peakCorrelation
    secondary_peak_ratio := secondaryPeakRatio
    snr_estimate := snrEstimate
    noise_floor_db := noiseFloorDb
    method := (method.take 31)
    error := error }

/-- `AlignmentEngine::createErrorResult` (`alignment_engine.cpp`, lines 632-634):
`createResult(0, 0.0, 0.0, 1.0, 0.0, -60.0, method, error)`. -/
def createErrorResult (error : HError) (method : String) : SyncResult :=
  createResult 0 0 0 1 0 (-60) method error

/-- The result returned by `harmoniq_sync_align` when its initial pointer and
length validation fails (`c_bridge.cpp`, lines 62-69): `result` is
zero-initialised (`= {}`), `error` is set to `INVALID_INPUT` and the method
tag to `"Invalid"`; every numeric field stays zero. -/
def bridgeInvalidResult : SyncResult :=
  { offset_samples := 0
    confidence := 0
    peak_correlation := 0
    secondary_peak_ratio := 0
    snr_estimate := 0
    noise_floor_db := 0
    method := "Invalid"
    error := .invalidInput }

/-!  Cross-correlation, `AlignmentEngine::crossCorrelate`
(`alignment_engine.cpp`, lines 383-410). -/

/-- The accumulated sum of the inner loop of `crossCorrelate` for one lag:
`sum += a[i] * b[j]` over `i < a.size()` whenever `j = i + actualLag` is a
valid index of `b` (`alignment_engine.cpp`, lines 396-402). -/
def corrSum (a b : List ℚ) (d : ℤ) : ℚ :=
  ∑ i ∈ Finset.range a.length,
    if 0 ≤ (i : ℤ) + d ∧ (i : ℤ) + d < (b.length : ℤ) then
      a.getD i 0 * b.getD ((i : ℤ) + d).toNat 0
    else 0

/-- The `count` accumulated by the same loop (`alignment_engine.cpp`,
lines 394-401). -/
def corrCount (a b : List ℚ) (d : ℤ) : ℕ :=
  ∑ i ∈ Finset.range a.length,
    if 0 ≤ (i : ℤ) + d ∧ (i : ℤ) + d < (b.length : ℤ) then 1 else 0

/-- `AlignmentEngine::crossCorrelate` (`alignment_engine.cpp`, lines 383-410):
empty output on an empty input; otherwise `2 * min |a| |b| - 1` lags, the
entry at lag index `l` being `sum / count` for signed lag
`actualLag = l - maxLag + 1`, and `0` when `count = 0`. -/
def crossCorrelate (a b : List ℚ) : List ℚ :=
  if a.isEmpty ∨ b.isEmpty then []
  else
    (List.range (2 * min a.length b.length - 1)).map fun l : ℕ =>
      let d : ℤ := (l : ℤ) - ((min a.length b.length : ℕ) : ℤ) + 1
      if 0 < corrCount a b d then corrSum a b d / (corrCount a b d : ℚ) else 0

/-!  Confidence scoring (`alignment_engine.cpp`, lines 438-507). -/

/-- `AlignmentEngine::ConfidenceFactors` (`alignment_engine.hpp`, lines 124-128).
In the source the three factors are produced by `calculateConfidenceFactors`
from the correlation sequence using `sqrt`, `tanh` and `log`
(`alignment_engine.cpp`, lines 438-493); those transcendental computations
have no rational counterpart, so the factor values enter the model as data. -/
structure ConfidenceFactors where
  correlationStrength : ℚ
  peakSharpness : ℚ
  snr : ℚ
deriving DecidableEq, Repr

/-- `AlignmentEngine::calculateConfidence` (`alignment_engine.cpp`,
lines 495-507): the blend `0.5 * strength + 0.3 * sharpness + 0.2 * snr`
clamped by `std::max(0.0, std::min(1.0, confidence))`. -/
def calculateConfidence (f : ConfidenceFactors) : ℚ :=
  max 0 (min 1 (f.correlationStrength * (1/2) + f.peakSharpness * (3/10) + f.snr * (1/5)))

/-- The shared tail of the four single-method alignments
(`alignment_engine.cpp`, lines 54-75 for `alignSpectralFlux`; lines 126-146,
172-192 and 249-269 are identical in structure): the peak's confidence is
`calculateConfidence` of the three factors (line 433); if it is below the
configured threshold the method returns `PROCESSING_FAILED`, otherwise
`createResult` with that confidence.  The sample offset, peak value,
secondary-peak ratio, SNR estimate and noise floor computed by the method
are passed through as parameters. -/
def singleMethodOutcome (threshold : ℚ) (f : ConfidenceFactors) (offset : ℤ)
    (peakValue secRatio snrEst noiseFloor : ℚ) (name : String) : SyncResult :=
  let conf := calculateConfidence f
  if conf < threshold then createErrorResult .processingFailed name
  else createResult offset conf peakValue secRatio snrEst noiseFloor name .success

/-!  Hybrid fusion, `AlignmentEngine::alignHybrid`
(`alignment_engine.cpp`, lines 272-339).  The four primary method results
are the inputs; the combination logic of lines 283-338 is embedded. -/

/-- The `results` vector collected at `alignment_engine.cpp`, lines 284-288:
the sub-results whose `error == HARMONIQ_SYNC_SUCCESS`, in method order. -/
def survivors (r1 r2 r3 r4 : SyncResult) : List SyncResult :=
  [r1, r2, r3, r4].filter fun r => r.error = .success

/-- `totalWeight` of `alignHybrid` (`alignment_engine.cpp`, lines 296-311):
the sum of the surviving results' confidences. -/
def totalWeight (s : List SyncResult) : ℚ :=
  (s.map (·.confidence)).sum

/-- The combination step of `AlignmentEngine::alignHybrid`
(`alignment_engine.cpp`, lines 283-338).  If no sub-result succeeded, or the
summed confidence weight is not positive, the hybrid result is
`PROCESSING_FAILED` with tag "Hybrid"; otherwise each numeric field is the
confidence-weighted mean over the survivors — the `int64_t` cast on line 314
truncates the weighted offset — and `secondary_peak_ratio` is the plain
mean (lines 320-325). -/
def hybridCombine (r1 r2 r3 r4 : SyncResult) : SyncResult :=
  let s := survivors r1 r2 r3 r4
  if s.isEmpty then createErrorResult .processingFailed "Hybrid"
  else if 0 < totalWeight s then
    createResult
      (ratTrunc ((s.map fun r => (r.offset_samples : ℚ) * r.confidence).sum / totalWeight s))
      ((s.map fun r => r.confidence * r.confidence).sum / totalWeight s)
      ((s.map fun r => r.peak_correlation * r.confidence).sum / totalWeight s)
      ((s.map (·.secondary_peak_ratio)).sum / (s.length : ℚ))
      ((s.map fun r => r.snr_estimate * r.confidence).sum / totalWeight s)
      ((s.map fun r => r.noise_floor_db * r.confidence).sum / totalWeight s)
      "Hybrid" .success
  else createErrorResult .processingFailed "Hybrid"

/-!  The C bridge entry point `harmoniq_sync_align` (`c_bridge.cpp`,
lines 55-120) and the minimum-length helper
`harmoniq_sync_min_audio_length` (lines 316-334). -/

/-- The number of analysis frames produced by the extraction loops
`for (size_t pos = 0; pos + windowSize <= audioData.size(); pos += hopSize)`
(`audio_processor.cpp`, lines 73, 110, 134, 157) for a clip of `len`
samples, window `window` (the `int` config value) and effective hop `h`,
or `none` when the loop does not terminate.  In the loop condition the
`int` window is converted to `size_t`: a negative window wraps to a value
far above any clip length, so the loop exits before its first iteration
and produces no frames; the same happens when the window is wider than
the clip.  Otherwise, when the effective hop is zero, `pos` never
advances and the loop runs forever. -/
def framesOpt (len : ℕ) (window : ℤ) (h : ℕ) : Option ℕ :=
  if window < 0 then some 0
  else if len < window.toNat then some 0
  else if h = 0 then none
  else some ((len - window.toNat) / h + 1)

/-- The effective hop used by `extractSpectralFlux`, `extractChromaFeatures`
and `extractMFCC`: `if (hopSize <= 0) hopSize = windowSize / 4`
(`audio_processor.cpp`, lines 67, 105, 148). -/
def effHopQuarter (window hop : ℤ) : ℕ :=
  (if hop ≤ 0 then window / 4 else hop).toNat

/-- The effective hop used by `extractEnergyProfile`:
`if (hopSize <= 0) hopSize = windowSize / 2` (`audio_processor.cpp`, line 129). -/
def effHopHalf (window hop : ℤ) : ℕ :=
  (if hop ≤ 0 then window / 2 else hop).toNat

/-- Whether the configured feature extraction yields an empty sequence for
a valid clip of `len` samples, or `none` when the extraction loop does not
terminate.  From the extraction loops (`audio_processor.cpp`): spectral
flux pushes one value per frame after the first (lines 73-94), so it is
empty iff fewer than two frames exist; chroma appends 12 values per frame
(lines 110-121), energy one per frame (lines 134-137), MFCC `numCoeffs`
per frame (lines 157-178), so those are empty iff no frame exists.  The
hybrid method never reaches this check itself: it runs all four primary
methods, each of which extracts both clips unconditionally, and converts
their failures to `PROCESSING_FAILED` (`alignment_engine.cpp`, lines
272-292) — so for hybrid the features are never "empty" at this stage,
but the call diverges when any of the two effective hops makes an
extraction loop run forever. -/
def featuresEmpty (m : Method) (len : ℕ) (window hop : ℤ) : Option Bool :=
  match m with
  | .spectralFlux => (framesOpt len window (effHopQuarter window hop)).map fun fr =>
      decide (fr ≤ 1)
  | .chroma => (framesOpt len window (effHopQuarter window hop)).map fun fr =>
      decide (fr = 0)
  | .energy => (framesOpt len window (effHopHalf window hop)).map fun fr =>
      decide (fr = 0)
  | .mfcc => (framesOpt len window (effHopQuarter window hop)).map fun fr =>
      decide (fr = 0)
  | .hybrid =>
    match framesOpt len window (effHopQuarter window hop),
        framesOpt len window (effHopHalf window hop) with
    | some _, some _ => some false
    | _, _ => none

/-- The stage at which one call of `harmoniq_sync_align` stops before any
correlation arithmetic happens; `diverges` records that the call never
returns because a feature-extraction loop with a zero effective hop never
advances. -/
inductive AlignStage where
  | errInvalidInput
  | errInsufficientData
  | proceeds
  | diverges
deriving DecidableEq, Repr

/-- The validation and feature-extraction stages of `harmoniq_sync_align`
(`c_bridge.cpp`, lines 55-120) composed with
`AlignmentEngine::validateInputs` (`alignment_engine.cpp`, lines 638-652)
and the per-method empty-feature checks (`alignment_engine.cpp`, lines
36-38, 87-89, 158-160, 204-206).  Null pointers are modelled by the two
`Bool` flags, the unknown-method `default` branch by `method = none`.
Bridge validation (lines 66-70) rejects null pointers, zero lengths and a
non-positive sample rate with `INVALID_INPUT`; `loadAudio` then cannot fail
(its guard re-checks the same conditions, `audio_processor.cpp` lines
32-35); the engine's `validateInputs` passes because both processors hold
the same positive rate and non-empty data; finally an empty feature
sequence on either side yields `INSUFFICIENT_DATA`.  When either clip's
extraction loop never terminates (zero effective hop with the window
inside the clip) the call never returns, recorded as `diverges`.  No
stage consults `harmoniq_sync_min_audio_length`. -/
def alignEntryStage (refNull tgtNull : Bool) (refLen tgtLen : ℕ) (rate : ℚ)
    (method : Option Method) (window hop : ℤ) : AlignStage :=
  if refNull ∨ tgtNull ∨ refLen = 0 ∨ tgtLen = 0 ∨ rate ≤ 0 then .errInvalidInput
  else
    match method with
    | none => .errInvalidInput
    | some m =>
      match featuresEmpty m refLen window hop, featuresEmpty m tgtLen window hop with
      | some er, some et => if er ∨ et then .errInsufficientData else .proceeds
      | _, _ => .diverges

/-!  Configuration records (`c_bridge.cpp`, lines 183-236 and 288-314). -/

/-- `harmoniq_sync_config_t` (`harmoniq_sync.h`, lines 54-61). -/
structure SyncConfig where
  confidence_threshold : ℚ
  max_offset_samples : ℤ
  window_size : ℤ
  hop_size : ℤ
  noise_gate_db : ℚ
  enable_drift_correction : ℤ
deriving DecidableEq, Repr

/-- `harmoniq_sync_default_config` (`c_bridge.cpp`, lines 183-194). -/
def defaultConfig : SyncConfig :=
  { confidence_threshold := 7/10
    max_offset_samples := 0
    window_size := 1024
    hop_size := 256
    noise_gate_db := -40
    enable_drift_correction := 1 }

/-- `harmoniq_sync_config_for_use_case` (`c_bridge.cpp`, lines 196-236):
starts from the default config and overrides per use-case tag; an unknown
tag (or a null pointer, not modelled) returns the default unchanged. -/
def configForUseCase (useCase : String) : SyncConfig :=
  let config := defaultConfig
  if useCase = "music" then
    { config with
      window_size := 4096
      hop_size := 1024
      noise_gate_db := -50
      confidence_threshold := 3/4 }
  else if useCase = "speech" then
    { config with
      window_size := 1024
      hop_size := 256
      noise_gate_db := -35
      confidence_threshold := 13/20 }
  else if useCase = "ambient" then
    { config with
      window_size := 2048
      hop_size := 512
      confidence_threshold := 3/5
      noise_gate_db := -45 }
  else if useCase = "multicam" then
    { config with
      window_size := 2048
      hop_size := 512
      confidence_threshold := 7/10
      enable_drift_correction := 1 }
  else if useCase = "broadcast" then
    { config with
      window_size := 4096
      hop_size := 1024
      confidence_threshold := 4/5
      noise_gate_db := -55 }
  else config

/-- `harmoniq_sync_validate_config` (`c_bridge.cpp`, lines 288-314) on a
non-null config record. -/
def validateConfig (c : SyncConfig) : HError :=
  if c.confidence_threshold < 0 ∨ 1 < c.confidence_threshold then .invalidInput
  else if c.window_size ≤ 0 ∨ c.hop_size ≤ 0 then .invalidInput
  else if c.window_size < c.hop_size then .invalidInput
  else if 0 < c.noise_gate_db ∨ c.noise_gate_db < -120 then .invalidInput
  else .success

/-!  The audio container `AudioProcessor` (`audio_processor.cpp`). -/

/-- The state of an `AudioProcessor` (`audio_processor.hpp`, lines 95-96):
the mono PCM buffer and its sample rate.  The mutable DSP scratch buffers
(`workingBuffer`, `fftBuffer`, `windowFunction`) carry no observable state. -/
structure AudioProc where
  audioData : List ℚ
  sampleRate : ℚ
deriving DecidableEq, Repr

/-- `AudioProcessor::isValid` (`audio_processor.hpp`, line 49):
`!audioData.empty() && sampleRate > 0`. -/
def AudioProc.isValid (p : AudioProc) : Bool :=
  !p.audioData.isEmpty && decide (0 < p.sampleRate)

/-- `AudioProcessor::resampleAudio` (`audio_processor.cpp`, lines 219-246):
linear-interpolation resampling; the two `size_t` casts truncate. -/
def resampleAudio (p : AudioProc) (targetRate : ℚ) : AudioProc :=
  if p.sampleRate = targetRate then p
  else
    let ratio := targetRate / p.sampleRate
    let len := p.audioData.length
    let newLength := (ratTrunc ((len : ℚ) * ratio)).toNat
    let resampled := (List.range newLength).filterMap fun i =>
      let srcIndex : ℚ := (i : ℚ) / ratio
      let index0 := (ratTrunc srcIndex).toNat
      let index1 := min (index0 + 1) (len - 1)
      let frac : ℚ := srcIndex - (index0 : ℚ)
      if index0 < len then
        some (p.audioData.getD index0 0 * (1 - frac) + p.audioData.getD index1 0 * frac)
      else none
    { audioData := resampled, sampleRate := targetRate }

/-- `AudioProcessor::loadAudio` (`audio_processor.cpp`, lines 32-52).
A null `samples` pointer is `none`; a non-null pointer with `length`
samples is `some xs`, zero length being the empty list.  The guard on
line 33 rejects before `clear()` runs, so the previous state is kept.
On success the previous data is replaced and, when `targetSampleRate > 0`
differs from the input rate by more than 1 Hz, resampled
(`resampleAudio` always reports success). -/
def loadAudio (p : AudioProc) (samples : Option (List ℚ))
    (inputRate targetRate : ℚ) : Bool × AudioProc :=
  match samples with
  | none => (false, p)
  | some xs =>
    if xs.isEmpty ∨ inputRate ≤ 0 then (false, p)
    else
      let loaded : AudioProc := { audioData := xs, sampleRate := inputRate }
      if 0 < targetRate ∧ 1 < |targetRate - inputRate| then
        (true, resampleAudio loaded targetRate)
      else (true, loaded)

/-- The in-place update of `AudioProcessor::applyPreEmphasis`
(`audio_processor.cpp`, lines 185-191).  The loop runs from the last index
down to 1, so each `audioData[i - 1]` it reads is still the original
value: the result is `y[0] = x[0]`, `y[i] = x[i] - alpha * x[i-1]`. -/
def preEmphList (alpha : ℚ) (xs : List ℚ) : List ℚ :=
  match xs with
  | [] => []
  | x0 :: rest => x0 :: List.zipWith (fun cur prev => cur - alpha * prev) rest xs

/-- `AudioProcessor::applyPreEmphasis` (`audio_processor.cpp`, lines 185-191):
no-op unless the clip is valid and has at least two samples. -/
def applyPreEmphasis (p : AudioProc) (alpha : ℚ) : AudioProc :=
  if p.isValid ∧ 2 ≤ p.audioData.length then
    { audioData := preEmphList alpha p.audioData, sampleRate := p.sampleRate }
  else p

/-- `AudioProcessor::applyNoiseGate` (`audio_processor.cpp`, lines 193-203):
no-op on an invalid clip; otherwise zeroes every sample whose absolute
value is below the threshold.  The source computes the threshold as
`std::pow(10.0f, thresholdDb / 20.0f)` (line 196); that transcendental
value enters the model as the `threshold` parameter. -/
def applyNoiseGate (p : AudioProc) (threshold : ℚ) : AudioProc :=
  if p.isValid then
    { audioData := p.audioData.map fun s => if |s| < threshold then 0 else s
      sampleRate := p.sampleRate }
  else p

/-- `AudioProcessor::findPeak` (`audio_processor.cpp`, lines 397-406):
maximum absolute sample value, `0` for an empty buffer. -/
def findPeak (xs : List ℚ) : ℚ :=
  xs.foldl (fun acc s => max acc |s|) 0

/-- `AudioProcessor::normalize` (`audio_processor.cpp`, lines 205-215):
no-op on an invalid clip or when the peak is not positive; otherwise every
sample is scaled by `targetPeak / peak`. -/
def normalize (p : AudioProc) (targetPeak : ℚ) : AudioProc :=
  if p.isValid then
    let peak := findPeak p.audioData
    if 0 < peak then
      { audioData := p.audioData.map (· * (targetPeak / peak))
        sampleRate := p.sampleRate }
    else p
  else p

/-!  Chroma mapping, `AudioProcessor::computeChromaVector`
(`audio_processor.cpp`, lines 358-384). -/

/-- The frequency of FFT bin `i` for a magnitude array of length `n`:
`i * sampleRate / (2.0 * (magnitude.size() - 1))`
(`audio_processor.cpp`, line 364). -/
def binFreq (rate : ℚ) (n i : ℕ) : ℚ :=
  (i : ℚ) * rate / (2 * ((n : ℚ) - 1))

/-- The total magnitude accumulated into chroma class `c` by the loop of
`computeChromaVector` (`audio_processor.cpp`, lines 362-375): bins `i ≥ 1`
contribute when `freq > 80 && freq < 2000` (line 366, strict on both
sides) and `midiNote >= 0` (line 370); the class is
`static_cast<int>(midiNote) % 12` (line 371), truncation of the
non-negative MIDI note.  The source computes
`midiNote = 12.0 * std::log2(freq / 440.0) + 69.0` (line 368); `log2` has
no rational counterpart, so that map enters the model as the `midi`
parameter. -/
def chromaRaw (midi : ℚ → ℚ) (rate : ℚ) (mag : List ℚ) (c : ℕ) : ℚ :=
  ∑ i ∈ Finset.Ico 1 mag.length,
    if 80 < binFreq rate mag.length i ∧ binFreq rate mag.length i < 2000 ∧
        0 ≤ midi (binFreq rate mag.length i) ∧
        ratTrunc (midi (binFreq rate mag.length i)) % 12 = (c : ℤ) then
      mag.getD i 0
    else 0

/-- `AudioProcessor::computeChromaVector` (`audio_processor.cpp`,
lines 358-384): accumulate the 12 chroma classes, then divide by the total
when it is positive (lines 378-383). -/
def computeChromaVector (midi : ℚ → ℚ) (rate : ℚ) (mag : List ℚ) : List ℚ :=
  let raw := (List.range 12).map (chromaRaw midi rate mag)
  let s := raw.sum
  if 0 < s then raw.map (· / s) else raw

/-- Modelled from the claim's words, for comparison with
`computeChromaVector`: bin `i ≥ 1` with frequency `f` contributes to chroma
class `⌊midi f⌋ mod 12` exactly when `80 ≤ f ≤ 2000` (boundary bins
included), and the 12-vector is normalised when its sum is non-zero.
Here `midi f` stands for `12 * log2(f / 440) + 69` as in the claim. -/
def chromaRawSpecIncl (midi : ℚ → ℚ) (rate : ℚ) (mag : List ℚ) (c : ℕ) : ℚ :=
  ∑ i ∈ Finset.Ico 1 mag.length,
    if 80 ≤ binFreq rate mag.length i ∧ binFreq rate mag.length i ≤ 2000 ∧
        ⌊midi (binFreq rate mag.length i)⌋ % 12 = (c : ℤ) then
      mag.getD i 0
    else 0

/-- Modelled from the claim's words: the chroma vector with inclusive
band edges, normalised to sum 1 whenever the sum is non-zero. -/
def computeChromaVectorSpecIncl (midi : ℚ → ℚ) (rate : ℚ) (mag : List ℚ) : List ℚ :=
  let raw := (List.range 12).map (chromaRawSpecIncl midi rate mag)
  let s := raw.sum
  if s ≠ 0 then raw.map (· / s) else raw

/-- Modelled from the claim's words, for comparison with `crossCorrelate`:
the sequence of length `2 * min |a| |b| - 1` whose entry at lag index `l`
is the mean of `a[i] * b[i+d]` over all indices `i` of `a` for which
`i + d` is in range of `b`, with signed lag `d = l - (min |a| |b| - 1)`,
and `0` for a lag with no in-range index. -/
def crossCorrelateSpec (a b : List ℚ) : List ℚ :=
  (List.range (2 * min a.length b.length - 1)).map fun l : ℕ =>
    let d : ℤ := (l : ℤ) - (((min a.length b.length : ℕ) : ℤ) - 1)
    let S := (Finset.range a.length).filter fun i : ℕ =>
      0 ≤ (i : ℤ) + d ∧ (i : ℤ) + d < (b.length : ℤ)
    if S.card ≠ 0 then (∑ i ∈ S, a.getD i 0 * b.getD ((i : ℤ) + d).toNat 0) / (S.card : ℚ)
    else 0

/-- A concrete successful method result used to exercise the hybrid
combination: offset 0, confidence one half. -/
def sampleSuccessA : SyncResult :=
  { offset_samples := 0
    confidence := 1/2
    peak_correlation := 9/10
    secondary_peak_ratio := 2
    snr_estimate := 12
    noise_floor_db := -50
    method := "Spectral Flux"
    error := .success }

/-- A concrete successful method result used to exercise the hybrid
combination: offset 1, confidence one quarter. -/
def sampleSuccessB : SyncResult :=
  { offset_samples := 1
    confidence := 1/4
    peak_correlation := 4/5
    secondary_peak_ratio := 3
    snr_estimate := 10
    noise_floor_db := -40
    method := "Chroma Features"
    error := .success }

/-- A concrete failed method result used to exercise the hybrid
combination. -/
def sampleFailC : SyncResult := createErrorResult .processingFailed "Energy Correlation"

/-- A concrete failed method result used to exercise the hybrid
combination. -/
def sampleFailD : SyncResult := createErrorResult .processingFailed "MFCC"

/-!  Theorems.  Each claim of the specification is settled by exactly one
theorem below (plus a witness or counterexample where required). -/

/-- Helper: the error code stored by `createErrorResult`. -/
theorem createErrorResult_error (e : HError) (name : String) :
    (createErrorResult e name).error = e := rfl

/-- C1 (amended): an error result produced by the alignment engine's
`createErrorResult` — the sole error path of every engine method, hybrid
and batch included — has `offset_samples = 0`, `confidence = 0`,
`peak_correlation = 0`, `snr_estimate = 0`, the `-60` dB noise-floor
sentinel, and `secondary_peak_ratio = 1` (not `0` as claimed); the bridge
entry point's own pointer/length validation failure instead returns a
fully zero-initialised record, where every numeric field including
`noise_floor_db` is `0`. -/
theorem C1_error_result_fields (e : HError) (name : String) :
    (createErrorResult e name).offset_samples = 0 ∧
    (createErrorResult e name).confidence = 0 ∧
    (createErrorResult e name).peak_correlation = 0 ∧
    (createErrorResult e name).secondary_peak_ratio = 1 ∧
    (createErrorResult e name).snr_estimate = 0 ∧
    (createErrorResult e name).noise_floor_db = -60 ∧
    (createErrorResult e name).error = e ∧
    bridgeInvalidResult.offset_samples = 0 ∧
    bridgeInvalidResult.confidence = 0 ∧
    bridgeInvalidResult.peak_correlation = 0 ∧
    bridgeInvalidResult.secondary_peak_ratio = 0 ∧
    bridgeInvalidResult.snr_estimate = 0 ∧
    bridgeInvalidResult.noise_floor_db = 0 ∧
    bridgeInvalidResult.error = .invalidInput := by
  refine ⟨rfl, rfl, rfl, rfl, rfl, rfl, rfl, rfl, rfl, rfl, rfl, rfl, rfl, rfl⟩

/-- C1 counterexample: the engine error result for a failed spectral-flux
alignment carries `secondary_peak_ratio = 1`, refuting the claim that all
numeric fields other than `noise_floor_db` are zero on failure. -/
theorem C1_counterexample :
    (createErrorResult .invalidInput "Spectral Flux").error ≠ .success ∧
    (createErrorResult .invalidInput "Spectral Flux").secondary_peak_ratio = 1 ∧
    (createErrorResult .invalidInput "Spectral Flux").secondary_peak_ratio ≠ 0 := by
  refine ⟨by decide, rfl, by simp [createErrorResult, createResult]⟩

/-- C8: the default configuration and the configuration for every use-case
tag — the five named presets and any unknown tag, which yields the default
unchanged — all pass `validate_config` with `SUCCESS`, whose error code
is `0`. -/
theorem C8_configs_validate :
    validateConfig defaultConfig = .success ∧
    HError.code .success = 0 ∧
    ∀ useCase : String, validateConfig (configForUseCase useCase) = .success := by
  refine ⟨by norm_num [validateConfig, defaultConfig], rfl, fun useCase => ?_⟩
  unfold configForUseCase
  split_ifs <;> norm_num [validateConfig, defaultConfig]

/-- C5 (amended): in `harmoniq_sync_align`, a null reference pointer yields
`INVALID_INPUT`, and a zero-length target also yields `INVALID_INPUT` —
not `INSUFFICIENT_DATA` as claimed — because the single validation branch
of the bridge rejects null pointers and zero lengths alike. -/
theorem C5_align_zero_length_target (refLen tgtLen : ℕ) (rate : ℚ)
    (m : Option Method) (window hop : ℤ) :
    alignEntryStage true false refLen tgtLen rate m window hop = .errInvalidInput ∧
    alignEntryStage false false refLen 0 rate m window hop = .errInvalidInput := by
  constructor <;> simp [alignEntryStage]

/-- C5 counterexample: a valid non-null reference of 100000 samples at
44100 Hz with a zero-length target returns `INVALID_INPUT`, not the
`INSUFFICIENT_DATA` the claim requires. -/
theorem C5_counterexample :
    alignEntryStage false false 100000 0 44100 (some .energy) 1024 256 = .errInvalidInput ∧
    AlignStage.errInvalidInput ≠ AlignStage.errInsufficientData := by
  exact ⟨by simp [alignEntryStage], by decide⟩

/-- C9: `loadAudio` with a null sample pointer or a zero length returns
`false` and leaves the container's previously loaded samples and sample
rate untouched, whatever the rates; likewise for any sample list when the
input sample rate is not positive.  The guard runs before `clear()`. -/
theorem C9_loadAudio_rejects_without_clearing (p : AudioProc) (xs : List ℚ)
    (inputRate targetRate : ℚ) :
    loadAudio p none inputRate targetRate = (false, p) ∧
    loadAudio p (some []) inputRate targetRate = (false, p) ∧
    (inputRate ≤ 0 → loadAudio p (some xs) inputRate targetRate = (false, p)) := by
  refine ⟨rfl, by simp [loadAudio], fun hrate => ?_⟩
  simp only [loadAudio]
  rw [if_pos (Or.inr hrate)]

/-- C9 witness: a container holding one sample rejects a null pointer and
a zero length at the valid rate 44100 Hz, and rejects a non-empty load at
the invalid rate `-1`, keeping its clip each time. -/
theorem C9_loadAudio_rejects_without_clearing_witness :
    loadAudio (AudioProc.mk [5] 44100) none 44100 0 = (false, AudioProc.mk [5] 44100) ∧
    loadAudio (AudioProc.mk [5] 44100) (some []) 44100 0 = (false, AudioProc.mk [5] 44100) ∧
    ((-1 : ℚ) ≤ 0) ∧
    loadAudio (AudioProc.mk [5] 44100) (some [1, 2]) (-1) 0 =
      (false, AudioProc.mk [5] 44100) :=
  ⟨(C9_loadAudio_rejects_without_clearing (AudioProc.mk [5] 44100) [1, 2] 44100 0).1,
    (C9_loadAudio_rejects_without_clearing (AudioProc.mk [5] 44100) [1, 2] 44100 0).2.1,
    by norm_num,
    (C9_loadAudio_rejects_without_clearing (AudioProc.mk [5] 44100) [1, 2] (-1) 0).2.2
      (by norm_num)⟩

/-- Helper: `preEmphList` preserves the length of the buffer. -/
theorem preEmphList_length (alpha : ℚ) (xs : List ℚ) :
    (preEmphList alpha xs).length = xs.length := by
  cases xs with
  | nil => rfl
  | cons x0 rest => simp [preEmphList]

/-- C10: each in-place preprocessing operation — pre-emphasis, noise gate
and peak normalisation — preserves the clip's sample count and sample
rate, and on an invalid clip (empty buffer or non-positive sample rate)
each is a complete no-op.  The noise-gate threshold parameter stands for
the `pow(10, db/20)` value computed by the source. -/
theorem C10_preprocessing_preserves_shape (p : AudioProc)
    (alpha threshold targetPeak : ℚ) :
    ((applyPreEmphasis p alpha).audioData.length = p.audioData.length ∧
      (applyPreEmphasis p alpha).sampleRate = p.sampleRate) ∧
    ((applyNoiseGate p threshold).audioData.length = p.audioData.length ∧
      (applyNoiseGate p threshold).sampleRate = p.sampleRate) ∧
    ((normalize p targetPeak).audioData.length = p.audioData.length ∧
      (normalize p targetPeak).sampleRate = p.sampleRate) ∧
    (p.isValid = false →
      applyPreEmphasis p alpha = p ∧ applyNoiseGate p threshold = p ∧
        normalize p targetPeak = p) := by
  refine ⟨?_, ?_, ?_, ?_⟩
  · unfold applyPreEmphasis
    split_ifs with h
    · exact ⟨preEmphList_length alpha p.audioData, rfl⟩
    · exact ⟨rfl, rfl⟩
  · unfold applyNoiseGate
    split_ifs with h
    · simp
    · exact ⟨rfl, rfl⟩
  · unfold normalize
    by_cases h : p.isValid = true
    · rw [if_pos h]
      dsimp only
      by_cases hp : 0 < findPeak p.audioData
      · rw [if_pos hp]
        simp
      · rw [if_neg hp]
        exact ⟨rfl, rfl⟩
    · rw [if_neg h]
      exact ⟨rfl, rfl⟩
  · intro hinv
    refine ⟨?_, ?_, ?_⟩
    · unfold applyPreEmphasis
      rw [if_neg (by simp [hinv])]
    · unfold applyNoiseGate
      rw [if_neg (by simp [hinv])]
    · unfold normalize
      rw [if_neg (by simp [hinv])]

/-- C10 witness: the empty container at rate 0 is invalid and untouched by
all three operations, which also preserve its (zero) length and rate. -/
theorem C10_preprocessing_preserves_shape_witness :
    ((AudioProc.mk [] 0).isValid = false) ∧
    (((applyPreEmphasis (AudioProc.mk [] 0) (97/100)).audioData.length =
        (AudioProc.mk ([] : List ℚ) 0).audioData.length ∧
      (applyPreEmphasis (AudioProc.mk [] 0) (97/100)).sampleRate =
        (AudioProc.mk ([] : List ℚ) 0).sampleRate) ∧
    ((applyNoiseGate (AudioProc.mk [] 0) (1/100)).audioData.length =
        (AudioProc.mk ([] : List ℚ) 0).audioData.length ∧
      (applyNoiseGate (AudioProc.mk [] 0) (1/100)).sampleRate =
        (AudioProc.mk ([] : List ℚ) 0).sampleRate) ∧
    ((normalize (AudioProc.mk [] 0) (19/20)).audioData.length =
        (AudioProc.mk ([] : List ℚ) 0).audioData.length ∧
      (normalize (AudioProc.mk [] 0) (19/20)).sampleRate =
        (AudioProc.mk ([] : List ℚ) 0).sampleRate) ∧
    ((AudioProc.mk ([] : List ℚ) 0).isValid = false →
      applyPreEmphasis (AudioProc.mk [] 0) (97/100) = AudioProc.mk [] 0 ∧
        applyNoiseGate (AudioProc.mk [] 0) (1/100) = AudioProc.mk [] 0 ∧
          normalize (AudioProc.mk [] 0) (19/20) = AudioProc.mk [] 0)) :=
  ⟨by simp [AudioProc.isValid],
    C10_preprocessing_preserves_shape (AudioProc.mk [] 0) (97/100) (1/100) (19/20)⟩

/-- C2: for non-empty feature sequences the cross-correlation has length
exactly `2 * min |a| |b| - 1`, and the entry at lag index `l` is the mean
of `a[i] * b[i+d]` over all in-range indices — `0` when no index is in
range — with signed lag `d = l - (min |a| |b| - 1)`, as described by
`crossCorrelateSpec`. -/
theorem C2_crossCorrelate_mean (a b : List ℚ) (ha : a ≠ []) (hb : b ≠ []) :
    (crossCorrelate a b).length = 2 * min a.length b.length - 1 ∧
    crossCorrelate a b = crossCorrelateSpec a b := by
  have hae : a.isEmpty = false := by simp [List.isEmpty_iff, ha]
  have hbe : b.isEmpty = false := by simp [List.isEmpty_iff, hb]
  unfold crossCorrelate crossCorrelateSpec
  rw [if_neg (by simp [hae, hbe])]
  refine ⟨by rw [List.length_map, List.length_range], ?_⟩
  refine List.map_congr_left fun l hl => ?_
  dsimp only
  have hd : (l : ℤ) - ((min a.length b.length : ℕ) : ℤ) + 1
      = (l : ℤ) - (((min a.length b.length : ℕ) : ℤ) - 1) := by ring
  rw [hd]
  set d := (l : ℤ) - (((min a.length b.length : ℕ) : ℤ) - 1) with hdd
  have hcard : ((Finset.range a.length).filter fun i : ℕ =>
      0 ≤ (i : ℤ) + d ∧ (i : ℤ) + d < (b.length : ℤ)).card = corrCount a b d := by
    unfold corrCount
    exact Finset.card_filter _ _
  have hsum : (∑ i ∈ (Finset.range a.length).filter fun i : ℕ =>
      0 ≤ (i : ℤ) + d ∧ (i : ℤ) + d < (b.length : ℤ),
        a.getD i 0 * b.getD ((i : ℤ) + d).toNat 0) = corrSum a b d := by
    unfold corrSum
    exact Finset.sum_filter _ _
  rw [hcard, hsum]
  simp [Nat.pos_iff_ne_zero]

/-- C2 witness: the theorem applied to the concrete sequences `[1, 2]` and
`[3, 4, 5]`. -/
theorem C2_crossCorrelate_mean_witness :
    (([1, 2] : List ℚ) ≠ []) ∧ (([3, 4, 5] : List ℚ) ≠ []) ∧
    ((crossCorrelate [1, 2] [3, 4, 5]).length =
        2 * min ([1, 2] : List ℚ).length ([3, 4, 5] : List ℚ).length - 1 ∧
      crossCorrelate [1, 2] [3, 4, 5] = crossCorrelateSpec [1, 2] [3, 4, 5]) :=
  ⟨by simp, by simp, C2_crossCorrelate_mean [1, 2] [3, 4, 5] (by simp) (by simp)⟩

/-- Helper: the clamped confidence blend is non-negative. -/
theorem calculateConfidence_nonneg (f : ConfidenceFactors) :
    0 ≤ calculateConfidence f :=
  le_max_left 0 _

/-- Helper: the clamped confidence blend is at most one. -/
theorem calculateConfidence_le_one (f : ConfidenceFactors) :
    calculateConfidence f ≤ 1 :=
  max_le zero_le_one (min_le_left 1 _)

/-- Helper: membership in the hybrid survivor list means membership among
the four method results with a success error code. -/
theorem mem_survivors (r1 r2 r3 r4 r : SyncResult)
    (h : r ∈ survivors r1 r2 r3 r4) :
    r ∈ [r1, r2, r3, r4] ∧ r.error = .success := by
  rw [survivors, List.mem_filter] at h
  exact ⟨h.1, by simpa using h.2⟩

/-- Helper: the confidence-weighted mean of the survivors' confidences is
bounded below by the threshold and lies in the unit interval, when every
survivor's confidence does and the total weight is positive. -/
theorem weighted_conf_bound (t : ℚ) (s : List SyncResult)
    (h : ∀ r ∈ s, t ≤ r.confidence ∧ 0 ≤ r.confidence ∧ r.confidence ≤ 1)
    (hW : 0 < totalWeight s) :
    t ≤ (s.map fun r => r.confidence * r.confidence).sum / totalWeight s ∧
    0 ≤ (s.map fun r => r.confidence * r.confidence).sum / totalWeight s ∧
    (s.map fun r => r.confidence * r.confidence).sum / totalWeight s ≤ 1 := by
  have hA_ge : (s.map fun r => t * r.confidence).sum ≤
      (s.map fun r => r.confidence * r.confidence).sum := by
    apply List.sum_le_sum
    intro r hr
    obtain ⟨h1, h2, _⟩ := h r hr
    exact mul_le_mul_of_nonneg_right h1 h2
  have hTW : (s.map fun r => t * r.confidence).sum = t * totalWeight s := by
    unfold totalWeight
    exact List.sum_map_mul_left s (·.confidence) t
  have hA_le : (s.map fun r => r.confidence * r.confidence).sum ≤ totalWeight s := by
    unfold totalWeight
    apply List.sum_le_sum
    intro r hr
    obtain ⟨_, h2, h3⟩ := h r hr
    calc r.confidence * r.confidence ≤ 1 * r.confidence :=
          mul_le_mul_of_nonneg_right h3 h2
    _ = r.confidence := one_mul _
  have hA_nonneg : 0 ≤ (s.map fun r => r.confidence * r.confidence).sum := by
    apply List.sum_nonneg
    intro x hx
    obtain ⟨r, _, rfl⟩ := List.mem_map.mp hx
    exact mul_self_nonneg _
  refine ⟨?_, div_nonneg hA_nonneg hW.le, ?_⟩
  · rw [le_div_iff₀ hW]
    calc t * totalWeight s = (s.map fun r => t * r.confidence).sum := hTW.symm
    _ ≤ _ := hA_ge
  · rw [div_le_one hW]
    exact hA_le

/-- C3: the confidence of a single-method result is the blend
`0.5 * strength + 0.3 * sharpness + 0.2 * snr` clamped to `[0, 1]`; a
single-method alignment whose blended confidence is below the threshold
returns `PROCESSING_FAILED`; and every result returned with
`error == SUCCESS` — by a single method, or by the hybrid combination of
four method results each of which satisfies the single-method guarantee —
has a confidence in `[0, 1]` that is at least the configured threshold. -/
theorem C3_success_confidence (f : ConfidenceFactors) (t : ℚ) (offset : ℤ)
    (peakValue secRatio snrEst noiseFloor : ℚ) (name : String)
    (r1 r2 r3 r4 : SyncResult)
    (hsub : ∀ r ∈ [r1, r2, r3, r4], r.error = .success →
      t ≤ r.confidence ∧ 0 ≤ r.confidence ∧ r.confidence ≤ 1) :
    (calculateConfidence f =
        max 0 (min 1 (f.correlationStrength * (1/2) + f.peakSharpness * (3/10) +
          f.snr * (1/5))) ∧
      0 ≤ calculateConfidence f ∧ calculateConfidence f ≤ 1) ∧
    ((singleMethodOutcome t f offset peakValue secRatio snrEst noiseFloor name).error =
        .success →
      (singleMethodOutcome t f offset peakValue secRatio snrEst noiseFloor name).confidence =
          calculateConfidence f ∧
        t ≤ (singleMethodOutcome t f offset peakValue secRatio snrEst noiseFloor name).confidence ∧
        0 ≤ (singleMethodOutcome t f offset peakValue secRatio snrEst noiseFloor name).confidence ∧
        (singleMethodOutcome t f offset peakValue secRatio snrEst noiseFloor name).confidence ≤ 1) ∧
    (calculateConfidence f < t →
      (singleMethodOutcome t f offset peakValue secRatio snrEst noiseFloor name).error =
        .processingFailed) ∧
    ((hybridCombine r1 r2 r3 r4).error = .success →
      t ≤ (hybridCombine r1 r2 r3 r4).confidence ∧
        0 ≤ (hybridCombine r1 r2 r3 r4).confidence ∧
        (hybridCombine r1 r2 r3 r4).confidence ≤ 1) := by
  refine ⟨⟨rfl, calculateConfidence_nonneg f, calculateConfidence_le_one f⟩, ?_, ?_, ?_⟩
  · intro hsucc
    unfold singleMethodOutcome at hsucc ⊢
    dsimp only at hsucc ⊢
    by_cases hc : calculateConfidence f < t
    · rw [if_pos hc] at hsucc
      exact absurd hsucc (by simp [createErrorResult, createResult])
    · rw [if_neg hc] at hsucc ⊢
      exact ⟨rfl, not_lt.mp hc, calculateConfidence_nonneg f, calculateConfidence_le_one f⟩
  · intro hc
    unfold singleMethodOutcome
    dsimp only
    rw [if_pos hc]
    rfl
  · intro hsucc
    have hsurv : ∀ r ∈ survivors r1 r2 r3 r4,
        t ≤ r.confidence ∧ 0 ≤ r.confidence ∧ r.confidence ≤ 1 := by
      intro r hr
      obtain ⟨hmem, herr⟩ := mem_survivors r1 r2 r3 r4 r hr
      exact hsub r hmem herr
    unfold hybridCombine at hsucc ⊢
    dsimp only at hsucc ⊢
    by_cases hse : (survivors r1 r2 r3 r4).isEmpty = true
    · rw [if_pos hse] at hsucc
      exact absurd hsucc (by decide)
    · rw [if_neg hse] at hsucc ⊢
      by_cases hw : 0 < totalWeight (survivors r1 r2 r3 r4)
      · rw [if_pos hw]
        exact weighted_conf_bound t (survivors r1 r2 r3 r4) hsurv hw
      · rw [if_neg hw] at hsucc
        exact absurd hsucc (by decide)

/-- C3 witness: the theorem applied to unit confidence factors, a
threshold of one half, and four failed method results (for which the
hybrid hypothesis is vacuous). -/
theorem C3_success_confidence_witness :
    (∀ r ∈ [createErrorResult .processingFailed "Spectral Flux",
        createErrorResult .processingFailed "Chroma Features",
        createErrorResult .processingFailed "Energy Correlation",
        createErrorResult .processingFailed "MFCC"], r.error = .success →
      (1/2 : ℚ) ≤ r.confidence ∧ 0 ≤ r.confidence ∧ r.confidence ≤ 1) ∧
    ((calculateConfidence (ConfidenceFactors.mk 1 1 1) =
        max 0 (min 1 ((ConfidenceFactors.mk 1 1 1).correlationStrength * (1/2) +
          (ConfidenceFactors.mk 1 1 1).peakSharpness * (3/10) +
          (ConfidenceFactors.mk (1:ℚ) 1 1).snr * (1/5))) ∧
      0 ≤ calculateConfidence (ConfidenceFactors.mk 1 1 1) ∧
        calculateConfidence (ConfidenceFactors.mk 1 1 1) ≤ 1) ∧
    ((singleMethodOutcome (1/2) (ConfidenceFactors.mk 1 1 1) 0 1 1 1 1 "Spectral Flux").error =
        .success →
      (singleMethodOutcome (1/2) (ConfidenceFactors.mk 1 1 1) 0 1 1 1 1 "Spectral Flux").confidence =
          calculateConfidence (ConfidenceFactors.mk 1 1 1) ∧
        (1/2 : ℚ) ≤ (singleMethodOutcome (1/2) (ConfidenceFactors.mk 1 1 1) 0 1 1 1 1 "Spectral Flux").confidence ∧
        0 ≤ (singleMethodOutcome (1/2) (ConfidenceFactors.mk 1 1 1) 0 1 1 1 1 "Spectral Flux").confidence ∧
        (singleMethodOutcome (1/2) (ConfidenceFactors.mk 1 1 1) 0 1 1 1 1 "Spectral Flux").confidence ≤ 1) ∧
    (calculateConfidence (ConfidenceFactors.mk 1 1 1) < 1/2 →
      (singleMethodOutcome (1/2) (ConfidenceFactors.mk 1 1 1) 0 1 1 1 1 "Spectral Flux").error =
        .processingFailed) ∧
    ((hybridCombine (createErrorResult .processingFailed "Spectral Flux")
        (createErrorResult .processingFailed "Chroma Features")
        (createErrorResult .processingFailed "Energy Correlation")
        (createErrorResult .processingFailed "MFCC")).error = .success →
      (1/2 : ℚ) ≤ (hybridCombine (createErrorResult .processingFailed "Spectral Flux")
          (createErrorResult .processingFailed "Chroma Features")
          (createErrorResult .processingFailed "Energy Correlation")
          (createErrorResult .processingFailed "MFCC")).confidence ∧
        0 ≤ (hybridCombine (createErrorResult .processingFailed "Spectral Flux")
          (createErrorResult .processingFailed "Chroma Features")
          (createErrorResult .processingFailed "Energy Correlation")
          (createErrorResult .processingFailed "MFCC")).confidence ∧
        (hybridCombine (createErrorResult .processingFailed "Spectral Flux")
          (createErrorResult .processingFailed "Chroma Features")
          (createErrorResult .processingFailed "Energy Correlation")
          (createErrorResult .processingFailed "MFCC")).confidence ≤ 1)) := by
  have hsub : ∀ r ∈ [createErrorResult .processingFailed "Spectral Flux",
      createErrorResult .processingFailed "Chroma Features",
      createErrorResult .processingFailed "Energy Correlation",
      createErrorResult .processingFailed "MFCC"], r.error = .success →
      (1/2 : ℚ) ≤ r.confidence ∧ 0 ≤ r.confidence ∧ r.confidence ≤ 1 := by
    intro r hr hs
    rcases List.mem_cons.mp hr with h | hr <;>
      [skip;
        rcases List.mem_cons.mp hr with h | hr] <;>
      [skip; skip;
        rcases List.mem_cons.mp hr with h | hr] <;>
      [skip; skip; skip;
        rcases List.mem_cons.mp hr with h | hr]
    all_goals first
      | (subst h; exact absurd hs (by decide))
      | exact absurd hr (by simp)
  exact ⟨hsub, C3_success_confidence (ConfidenceFactors.mk 1 1 1) (1/2) 0 1 1 1 1
    "Spectral Flux" _ _ _ _ hsub⟩

/-- C6 (amended): the hybrid combination returns `PROCESSING_FAILED` with
tag "Hybrid" when no primary method succeeded, and also when the summed
confidence weight of the survivors is not positive; otherwise it succeeds
with tag "Hybrid", each numeric field the confidence-weighted mean over
the survivors — except that `offset_samples` is the weighted mean
truncated toward zero by the `int64_t` cast, and `secondary_peak_ratio`
is the plain arithmetic mean. -/
theorem C6_hybrid_combination (r1 r2 r3 r4 : SyncResult) :
    (survivors r1 r2 r3 r4 = [] →
      hybridCombine r1 r2 r3 r4 = createErrorResult .processingFailed "Hybrid") ∧
    (survivors r1 r2 r3 r4 ≠ [] → totalWeight (survivors r1 r2 r3 r4) ≤ 0 →
      hybridCombine r1 r2 r3 r4 = createErrorResult .processingFailed "Hybrid") ∧
    (survivors r1 r2 r3 r4 ≠ [] → 0 < totalWeight (survivors r1 r2 r3 r4) →
      hybridCombine r1 r2 r3 r4 = createResult
        (ratTrunc (((survivors r1 r2 r3 r4).map fun r =>
            (r.offset_samples : ℚ) * r.confidence).sum /
          totalWeight (survivors r1 r2 r3 r4)))
        (((survivors r1 r2 r3 r4).map fun r => r.confidence * r.confidence).sum /
          totalWeight (survivors r1 r2 r3 r4))
        (((survivors r1 r2 r3 r4).map fun r => r.peak_correlation * r.confidence).sum /
          totalWeight (survivors r1 r2 r3 r4))
        (((survivors r1 r2 r3 r4).map (·.secondary_peak_ratio)).sum /
          ((survivors r1 r2 r3 r4).length : ℚ))
        (((survivors r1 r2 r3 r4).map fun r => r.snr_estimate * r.confidence).sum /
          totalWeight (survivors r1 r2 r3 r4))
        (((survivors r1 r2 r3 r4).map fun r => r.noise_floor_db * r.confidence).sum /
          totalWeight (survivors r1 r2 r3 r4))
        "Hybrid" .success) := by
  refine ⟨?_, ?_, ?_⟩
  · intro h
    unfold hybridCombine
    dsimp only
    rw [if_pos (List.isEmpty_iff.mpr h)]
  · intro hne hw
    unfold hybridCombine
    dsimp only
    rw [if_neg fun hh => hne (List.isEmpty_iff.mp hh), if_neg (not_lt.mpr hw)]
  · intro hne hw
    unfold hybridCombine
    dsimp only
    rw [if_neg fun hh => hne (List.isEmpty_iff.mp hh), if_pos hw]

/-- C6 witness: the theorem's success case applied to two successful
results (confidences one half and one quarter) and two failures. -/
theorem C6_hybrid_combination_witness :
    survivors sampleSuccessA sampleSuccessB sampleFailC sampleFailD ≠ [] ∧
    0 < totalWeight (survivors sampleSuccessA sampleSuccessB sampleFailC sampleFailD) ∧
    hybridCombine sampleSuccessA sampleSuccessB sampleFailC sampleFailD = createResult
      (ratTrunc (((survivors sampleSuccessA sampleSuccessB sampleFailC sampleFailD).map fun r =>
          (r.offset_samples : ℚ) * r.confidence).sum /
        totalWeight (survivors sampleSuccessA sampleSuccessB sampleFailC sampleFailD)))
      (((survivors sampleSuccessA sampleSuccessB sampleFailC sampleFailD).map fun r =>
          r.confidence * r.confidence).sum /
        totalWeight (survivors sampleSuccessA sampleSuccessB sampleFailC sampleFailD))
      (((survivors sampleSuccessA sampleSuccessB sampleFailC sampleFailD).map fun r =>
          r.peak_correlation * r.confidence).sum /
        totalWeight (survivors sampleSuccessA sampleSuccessB sampleFailC sampleFailD))
      (((survivors sampleSuccessA sampleSuccessB sampleFailC sampleFailD).map
          (·.secondary_peak_ratio)).sum /
        ((survivors sampleSuccessA sampleSuccessB sampleFailC sampleFailD).length : ℚ))
      (((survivors sampleSuccessA sampleSuccessB sampleFailC sampleFailD).map fun r =>
          r.snr_estimate * r.confidence).sum /
        totalWeight (survivors sampleSuccessA sampleSuccessB sampleFailC sampleFailD))
      (((survivors sampleSuccessA sampleSuccessB sampleFailC sampleFailD).map fun r =>
          r.noise_floor_db * r.confidence).sum /
        totalWeight (survivors sampleSuccessA sampleSuccessB sampleFailC sampleFailD))
      "Hybrid" .success := by
  have hs : survivors sampleSuccessA sampleSuccessB sampleFailC sampleFailD =
      [sampleSuccessA, sampleSuccessB] := rfl
  have h1 : survivors sampleSuccessA sampleSuccessB sampleFailC sampleFailD ≠ [] := by
    rw [hs]
    simp
  have h2 : 0 < totalWeight (survivors sampleSuccessA sampleSuccessB sampleFailC sampleFailD) := by
    rw [hs]
    norm_num [totalWeight, sampleSuccessA, sampleSuccessB]
  exact ⟨h1, h2,
    (C6_hybrid_combination sampleSuccessA sampleSuccessB sampleFailC sampleFailD).2.2 h1 h2⟩

/-- C6 counterexample: with surviving confidences one half (offset 0) and
one quarter (offset 1), the confidence-weighted mean offset is `1/3`, but
the hybrid result's `offset_samples` is the truncation `0`, refuting the
claim that `offset_samples` equals the weighted mean. -/
theorem C6_counterexample :
    ((hybridCombine sampleSuccessA sampleSuccessB sampleFailC sampleFailD).offset_samples : ℚ) ≠
      ((survivors sampleSuccessA sampleSuccessB sampleFailC sampleFailD).map fun r =>
          (r.offset_samples : ℚ) * r.confidence).sum /
        totalWeight (survivors sampleSuccessA sampleSuccessB sampleFailC sampleFailD) ∧
    (hybridCombine sampleSuccessA sampleSuccessB sampleFailC sampleFailD).error = .success := by
  have hs : survivors sampleSuccessA sampleSuccessB sampleFailC sampleFailD =
      [sampleSuccessA, sampleSuccessB] := rfl
  have hW : totalWeight [sampleSuccessA, sampleSuccessB] = 3/4 := by
    norm_num [totalWeight, sampleSuccessA, sampleSuccessB]
  have hsum : ([sampleSuccessA, sampleSuccessB].map fun r =>
      (r.offset_samples : ℚ) * r.confidence).sum = 1/4 := by
    norm_num [sampleSuccessA, sampleSuccessB]
  have hcomb : hybridCombine sampleSuccessA sampleSuccessB sampleFailC sampleFailD =
      createResult
        (ratTrunc ((1/4) / (3/4)))
        (([sampleSuccessA, sampleSuccessB].map fun r => r.confidence * r.confidence).sum / (3/4))
        (([sampleSuccessA, sampleSuccessB].map fun r =>
          r.peak_correlation * r.confidence).sum / (3/4))
        (([sampleSuccessA, sampleSuccessB].map (·.secondary_peak_ratio)).sum /
          (([sampleSuccessA, sampleSuccessB] : List SyncResult).length : ℚ))
        (([sampleSuccessA, sampleSuccessB].map fun r => r.snr_estimate * r.confidence).sum / (3/4))
        (([sampleSuccessA, sampleSuccessB].map fun r =>
          r.noise_floor_db * r.confidence).sum / (3/4))
        "Hybrid" .success := by
    unfold hybridCombine
    dsimp only
    rw [hs, hW, hsum]
    rw [if_neg (by simp), if_pos (by norm_num)]
  refine ⟨?_, ?_⟩
  · rw [hcomb, hs, hW, hsum]
    show ((ratTrunc ((1/4) / (3/4)) : ℤ) : ℚ) ≠ (1/4) / (3/4)
    norm_num [ratTrunc]
  · rw [hcomb]
    rfl

/-- Helper: a sum over the index interval `[1, 2)` is the single term at 1. -/
theorem sum_Ico_one_two (g : ℕ → ℚ) : ∑ i ∈ Finset.Ico 1 2, g i = g 1 := by
  rw [Finset.sum_Ico_succ_top (le_refl 1), Finset.Ico_self, Finset.sum_empty, zero_add]

/-- Helper: dividing every list element by `s` divides the sum by `s`. -/
theorem sum_map_div (l : List ℚ) (s : ℚ) : (l.map (· / s)).sum = l.sum / s := by
  simp only [div_eq_mul_inv]
  rw [show (fun x : ℚ => x * s⁻¹) = fun x : ℚ => id x * s⁻¹ from rfl, List.sum_map_mul_right]
  simp

/-- Helper: indexing a mapped range below its length evaluates the map. -/
theorem getD_map_range (f : ℕ → ℚ) (n c : ℕ) (hc : c < n) :
    ((List.range n).map f).getD c 0 = f c := by
  have hlen : c < ((List.range n).map f).length := by simpa using hc
  rw [List.getD_eq_getElem _ _ hlen]
  simp

/-- C7 (amended): the chroma vector has 12 classes; class `c` holds the
magnitudes of the bins whose frequency lies strictly between 80 Hz and
2000 Hz (boundary bins excluded, unlike the claim's inclusive bounds)
mapped to `c`, divided by the total exactly when the total is positive;
and whenever the accumulated total is positive the normalised vector sums
to 1. -/
theorem C7_chroma_normalization (midi : ℚ → ℚ) (rate : ℚ) (mag : List ℚ) :
    (computeChromaVector midi rate mag).length = 12 ∧
    (∀ c : ℕ, c < 12 →
      (computeChromaVector midi rate mag).getD c 0 =
        if 0 < ((List.range 12).map (chromaRaw midi rate mag)).sum then
          chromaRaw midi rate mag c / ((List.range 12).map (chromaRaw midi rate mag)).sum
        else chromaRaw midi rate mag c) ∧
    (0 < ((List.range 12).map (chromaRaw midi rate mag)).sum →
      (computeChromaVector midi rate mag).sum = 1) := by
  refine ⟨?_, ?_, ?_⟩
  · unfold computeChromaVector
    dsimp only
    split_ifs <;> simp
  · intro c hc
    unfold computeChromaVector
    dsimp only
    split_ifs with h
    · rw [List.map_map]
      exact getD_map_range _ 12 c hc
    · exact getD_map_range _ 12 c hc
  · intro h
    unfold computeChromaVector
    dsimp only
    rw [if_pos h, sum_map_div, div_self (ne_of_gt h)]

/-- C7 witness: a spectrum with one bin at 100 Hz (inside the band) and the
abstract MIDI value 45 — class 9 — yields a positive total, and the
normalised chroma vector sums to 1. -/
theorem C7_chroma_normalization_witness :
    0 < ((List.range 12).map (chromaRaw (fun _ => (45 : ℚ)) 200 [0, 1])).sum ∧
    (computeChromaVector (fun _ => (45 : ℚ)) 200 [0, 1]).sum = 1 := by
  have hg : ∀ c : ℕ, chromaRaw (fun _ => (45 : ℚ)) 200 [0, 1] c =
      if (9 : ℤ) = (c : ℤ) then 1 else 0 := by
    intro c
    unfold chromaRaw
    simp only [show ([0, 1] : List ℚ).length = 2 from rfl]
    rw [sum_Ico_one_two]
    have htr : ratTrunc ((fun _ : ℚ => (45 : ℚ)) (binFreq 200 2 1)) % 12 = (9 : ℤ) := by
      norm_num [ratTrunc]
    by_cases hc : (9 : ℤ) = (c : ℤ)
    · rw [if_pos ⟨by norm_num [binFreq], by norm_num [binFreq], by norm_num,
        htr.trans hc⟩, if_pos hc]
      rfl
    · rw [if_neg, if_neg hc]
      intro hcond
      exact hc (htr.symm.trans hcond.2.2.2)
  have hmap : (List.range 12).map (chromaRaw (fun _ => (45 : ℚ)) 200 [0, 1]) =
      [0, 0, 0, 0, 0, 0, 0, 0, 0, 1, 0, 0] := by
    rw [List.map_congr_left fun c _ => hg c]
    rw [show List.range 12 = [0, 1, 2, 3, 4, 5, 6, 7, 8, 9, 10, 11] from rfl]
    norm_num
  have hpos : 0 < ((List.range 12).map (chromaRaw (fun _ => (45 : ℚ)) 200 [0, 1])).sum := by
    rw [hmap]
    norm_num
  exact ⟨hpos, (C7_chroma_normalization (fun _ => (45 : ℚ)) 200 [0, 1]).2.2 hpos⟩

/-- C7 counterexample: a spectrum whose only non-zero bin sits at exactly
80 Hz.  The claim (inclusive bounds) predicts that magnitude lands in a
chroma class and the vector normalises to contain a 1; the code's strict
comparison discards it and returns the all-zero vector. -/
theorem C7_counterexample :
    computeChromaVector (fun _ => (79 : ℚ) / 2) 160 [0, 1] ≠
      computeChromaVectorSpecIncl (fun _ => (79 : ℚ) / 2) 160 [0, 1] := by
  have hg0 : ∀ c : ℕ, chromaRaw (fun _ => (79 : ℚ) / 2) 160 [0, 1] c = 0 := by
    intro c
    unfold chromaRaw
    simp only [show ([0, 1] : List ℚ).length = 2 from rfl]
    rw [sum_Ico_one_two]
    rw [if_neg]
    intro hcond
    have h1 := hcond.1
    rw [show binFreq 160 2 1 = 80 from by norm_num [binFreq]] at h1
    exact absurd h1 (by norm_num)
  have hfl : ⌊(fun _ : ℚ => (79 : ℚ) / 2) (binFreq 160 2 1)⌋ % 12 = (3 : ℤ) := by
    norm_num
  have hgS : ∀ c : ℕ, chromaRawSpecIncl (fun _ => (79 : ℚ) / 2) 160 [0, 1] c =
      if (3 : ℤ) = (c : ℤ) then 1 else 0 := by
    intro c
    unfold chromaRawSpecIncl
    simp only [show ([0, 1] : List ℚ).length = 2 from rfl]
    rw [sum_Ico_one_two]
    by_cases hc : (3 : ℤ) = (c : ℤ)
    · rw [if_pos ⟨by norm_num [binFreq], by norm_num [binFreq], hfl.trans hc⟩, if_pos hc]
      rfl
    · rw [if_neg, if_neg hc]
      intro hcond
      exact hc (hfl.symm.trans hcond.2.2)
  have hcode : computeChromaVector (fun _ => (79 : ℚ) / 2) 160 [0, 1] =
      [0, 0, 0, 0, 0, 0, 0, 0, 0, 0, 0, 0] := by
    unfold computeChromaVector
    dsimp only
    rw [List.map_congr_left fun c _ => hg0 c]
    rw [show List.range 12 = [0, 1, 2, 3, 4, 5, 6, 7, 8, 9, 10, 11] from rfl]
    norm_num
  have hspec : computeChromaVectorSpecIncl (fun _ => (79 : ℚ) / 2) 160 [0, 1] =
      [0, 0, 0, 1, 0, 0, 0, 0, 0, 0, 0, 0] := by
    unfold computeChromaVectorSpecIncl
    dsimp only
    rw [List.map_congr_left fun c _ => hgS c]
    rw [show List.range 12 = [0, 1, 2, 3, 4, 5, 6, 7, 8, 9, 10, 11] from rfl]
    norm_num
  rw [hcode, hspec]
  simp

end HarmoniqSync
